import Mathlib

/-!
Verification of the OTel-to-Sentry span bridge
(`sentry_sdk/integrations/opentelemetry/span_processor.py`).

The Python module is shallowly embedded: dictionaries become association
lists over `String` keys, the mutable singleton's `otel_span_map` becomes
explicit state threaded through `on_start` / `on_end`, a raised `KeyError`
becomes `Option.none`, and the native Sentry span/transaction objects
(owned by `sentry_sdk.tracing`, outside this module) are modelled from the
spec as records of the fields the bridge passes to them.
-/

set_option autoImplicit false

/-- A scalar OTel attribute value: string, integer or boolean
(the closed variant the spec prescribes for attribute dictionaries). -/
inductive AttrVal where
  | str (s : String)
  | int (n : Int)
  | bool (b : Bool)
deriving DecidableEq, Repr

/-- Python truthiness of an attribute value: empty string, zero and
`False` are falsy; everything else is truthy. -/
def AttrVal.truthy : AttrVal → Bool
  | .str s => s ≠ ""
  | .int n => n ≠ 0
  | .bool b => b

/-- Python `str()` / `"{}".format()` rendering of an attribute value. -/
def AttrVal.toStr : AttrVal → String
  | .str s => s
  | .int n => toString n
  | .bool b => if b then "True" else "False"

/-- Python `int()` view of an attribute value where one exists
(booleans are integers in Python; strings are not). -/
def AttrVal.asInt : AttrVal → Option Int
  | .str _ => none
  | .int n => some n
  | .bool b => some (if b then 1 else 0)

/-- An attribute dictionary: unique string keys to scalar values. -/
abbrev Attrs := List (String × AttrVal)

/-- Python `dict.get(k, None)`: first binding for the key, if any. -/
def dictGet {α : Type} : List (String × α) → String → Option α
  | [], _ => none
  | (k, v) :: rest, key => if k = key then some v else dictGet rest key

/-- Python `d[k] = v`: overwrite the binding in place when the key is
present, otherwise append the new binding. -/
def dictInsert {α : Type} : List (String × α) → String → α → List (String × α)
  | [], key, v => [(key, v)]
  | (k, w) :: rest, key, v =>
      if k = key then (key, v) :: rest else (k, w) :: dictInsert rest key v

/-- Removal of every binding of a key (under unique keys, the one binding
Python `dict.pop` deletes). -/
def dictErase {α : Type} : List (String × α) → String → List (String × α)
  | [], _ => []
  | (k, v) :: rest, key =>
      if k = key then dictErase rest key else (k, v) :: dictErase rest key

/-- Python `dict.pop(k)` without a default: the value and the shrunken
dictionary when the key is present, `none` (a raised `KeyError`) otherwise. -/
def dictPop {α : Type} (m : List (String × α)) (key : String) :
    Option (α × List (String × α)) :=
  match dictGet m key with
  | none => none
  | some v => some (v, dictErase m key)

/-- Truthy lookup: the value of a key when it is present with a truthy
value, mirroring the `if attrs.get(k):` idiom of the Python source. -/
def getTruthy (a : Attrs) (key : String) : Option AttrVal :=
  match dictGet a key with
  | none => none
  | some v => if v.truthy then some v else none

namespace SpanAttributes

def HTTP_METHOD : String := "http.method"

def DB_SYSTEM : String := "db.system"

def NET_PEER_NAME : String := "net.peer.name"

def HTTP_TARGET : String := "http.target"

def HTTP_STATUS_CODE : String := "http.status_code"

def DB_STATEMENT : String := "db.statement"

end SpanAttributes

/-- The fixed context key under which OTel data is attached to a
transaction (`OPEN_TELEMETRY_CONTEXT = "otel"` in the source). -/
def OPEN_TELEMETRY_CONTEXT : String := "otel"

/-- The hex digits of a natural number in the given base, lowercase,
most significant first; fuel bounds the recursion as in core. -/
def hexDigitsCore : Nat → Nat → List Char → List Char
  | 0, _, ds => ds
  | fuel + 1, n, ds =>
      let d := Nat.digitChar (n % 16)
      if n / 16 = 0 then d :: ds else hexDigitsCore fuel (n / 16) (d :: ds)

/-- Python `"{:0wx}".format(n)`: lowercase hex, zero-padded on the left
to at least `width` characters. -/
def formatHex (width : Nat) (n : Nat) : String :=
  let ds := hexDigitsCore (n + 1) n []
  String.mk (List.replicate (width - ds.length) '0' ++ ds)

/-- `opentelemetry.trace.format_span_id`: 16 lowercase hex characters. -/
def format_span_id (n : Nat) : String := formatHex 16 n

/-- `opentelemetry.trace.format_trace_id`: 32 lowercase hex characters. -/
def format_trace_id (n : Nat) : String := formatHex 32 n

/-- The identity half of an OTel span context: 128-bit trace id and
64-bit span id, kept as naturals and rendered through the formatters. -/
structure OtelSpanContext where
  trace_id : Nat
  span_id : Nat
deriving DecidableEq, Repr

/-- The resource attached to an OTel span (process-level metadata). -/
structure OtelResource where
  attributes : Attrs
deriving DecidableEq, Repr

/-- A read-only foreign (OTel) span as the bridge consumes it: name,
identity, optional parent context, nanosecond epoch timestamps,
attributes and resource attributes. -/
structure OtelSpan where
  name : String
  context : OtelSpanContext
  parent : Option OtelSpanContext
  start_time : Nat
  end_time : Nat
  attributes : Attrs
  resource : OtelResource
deriving DecidableEq, Repr

/-- The value `datetime.fromtimestamp(ns / 1e9)` computed from a
nanosecond epoch timestamp; represented by the nanosecond count it was
converted from, so that both lifecycle hooks demonstrably apply the same
conversion. -/
structure Datetime where
  ns : Nat
deriving DecidableEq, Repr

/-- The timestamp conversion `datetime.fromtimestamp(t / 1e9)` applied by
`on_start` and `on_end`. -/
def Datetime.fromtimestamp (t : Nat) : Datetime := ⟨t⟩

/-- The structured context block `_get_otel_context` builds: the span's
attributes when non-empty and its resource attributes when non-empty. -/
structure OtelCtx where
  attributes : Option Attrs := none
  resource : Option Attrs := none
deriving DecidableEq, Repr

/-- Modelled from the spec: the native Sentry span / transaction object
(`sentry_sdk.tracing`, not under `src/`), as a tagged record with the
shared capability set (data, tags, status, description, finish) plus the
transaction-only fields (name, trace-wide context blocks, baggage). -/
structure SentrySpanData where
  is_transaction : Bool
  span_id : String
  parent_span_id : Option String := none
  trace_id : Option String := none
  baggage : Option String := none
  name : Option String := none
  op : Option String := none
  description : Option String := none
  status : Option String := none
  tags : List (String × String) := []
  data : Attrs := []
  contexts : List (String × OtelCtx) := []
  start_timestamp : Datetime
  end_timestamp : Option Datetime := none
  finished : Bool := false
  instrumenter : String := "sentry"
deriving DecidableEq, Repr

/-- Modelled from the spec: the native `set_data(key, value)` operation —
copy one key/value pair into the span's data mapping unchanged. -/
def SentrySpanData.set_data (s : SentrySpanData) (key : String) (v : AttrVal) :
    SentrySpanData :=
  { s with data := dictInsert s.data key v }

/-- Modelled from the spec: the native `set_tag` operation on the
string-to-string tags mapping. -/
def SentrySpanData.set_tag (s : SentrySpanData) (key value : String) :
    SentrySpanData :=
  { s with tags := dictInsert s.tags key value }

/-- Modelled from the spec: the native `set_status` operation. -/
def SentrySpanData.set_status (s : SentrySpanData) (value : String) :
    SentrySpanData :=
  { s with status := some value }

/-- Modelled from the spec: the semantic status category of a numeric
HTTP status code (the spec fixes the example 429 ↦ resource exhausted,
rendered "resource_exhausted" as in the repository's tests). -/
def spanStatusOfHttpCode (n : Int) : String :=
  if n < 400 then "ok"
  else if n = 401 then "unauthenticated"
  else if n = 403 then "permission_denied"
  else if n = 404 then "not_found"
  else if n = 409 then "already_exists"
  else if n = 413 then "failed_precondition"
  else if n = 429 then "resource_exhausted"
  else if n < 500 then "invalid_argument"
  else if n = 501 then "unimplemented"
  else if n = 503 then "unavailable"
  else if n = 504 then "deadline_exceeded"
  else if n < 600 then "internal_error"
  else "unknown_error"

/-- Modelled from the spec: the native "set a tag from an HTTP status
code" operation (`Span.set_http_status`, not under `src/`): sets the
string tag under the status-code key and sets the span status to the
semantic category of the numeric code. -/
def SentrySpanData.set_http_status (s : SentrySpanData) (code : AttrVal) :
    SentrySpanData :=
  let s := s.set_tag SpanAttributes.HTTP_STATUS_CODE code.toStr
  match code.asInt with
  | some n => s.set_status (spanStatusOfHttpCode n)
  | none => s

/-- Modelled from the spec: the native `set_context(key, value)` operation
available on transactions. -/
def SentrySpanData.set_context (s : SentrySpanData) (key : String)
    (value : OtelCtx) : SentrySpanData :=
  { s with contexts := dictInsert s.contexts key value }

/-- Modelled from the spec: the native `finish(end_timestamp)` operation —
terminal; records the explicit end time. -/
def SentrySpanData.finish (s : SentrySpanData) (end_timestamp : Datetime) :
    SentrySpanData :=
  { s with end_timestamp := some end_timestamp, finished := true }

/-- Modelled from the spec: `Span.start_child` (not under `src/`) —
create a child span on this native parent with explicit id, description
and start time, linked to the parent's identity. -/
def SentrySpanData.start_child (parent : SentrySpanData) (span_id : String)
    (description : String) (start_timestamp : Datetime)
    (instrumenter : String) : SentrySpanData :=
  { is_transaction := false
    span_id := span_id
    parent_span_id := some parent.span_id
    trace_id := parent.trace_id
    description := some description
    start_timestamp := start_timestamp
    instrumenter := instrumenter }

/-- The active native tracing session (`Hub.current`); `Option Hub`
models its possible absence. -/
inductive Hub where
  | mk
deriving DecidableEq, Repr

/-- Modelled from the spec: `Hub.start_transaction` (not under `src/`) —
start a transaction with explicit name, id, parent id, trace id, baggage
and start time. -/
def Hub.start_transaction (_ : Hub) (name span_id : String)
    (parent_span_id : Option String) (trace_id : String)
    (baggage : Option String) (start_timestamp : Datetime)
    (instrumenter : String) : SentrySpanData :=
  { is_transaction := true
    span_id := span_id
    parent_span_id := parent_span_id
    trace_id := some trace_id
    baggage := baggage
    name := some name
    start_timestamp := start_timestamp
    instrumenter := instrumenter }

/-- Modelled from the spec: the ambient context read interface
(`opentelemetry.context.get_value`, not under `src/`) — a lookup
returning a (trace id, parent span id, parent-sampled) triple under the
sentry-trace key and an opaque baggage string under the baggage key;
absence of either is normal. -/
structure AmbientCtx where
  sentry_trace : Option (String × String × Option Bool) := none
  baggage : Option String := none
deriving DecidableEq, Repr

/-- The trace data `_get_trace_data` extracts from one OTel span and its
parent context. -/
structure TraceData where
  span_id : String
  trace_id : String
  parent_span_id : Option String
  parent_sampled : Option Bool
  baggage : Option String
deriving DecidableEq, Repr

/-- The live mapping from foreign span ids to native spans
(`SentrySpanProcessor.otel_span_map`). -/
abbrev SpanMap := List (String × SentrySpanData)

namespace SentrySpanProcessor

/-- `SentrySpanProcessor._get_trace_data`: span id and trace id rendered
as fixed-width hex, the parent span id when a parent exists, and the
parent sampling decision and baggage read from the ambient context. -/
def get_trace_data (otel_span : OtelSpan) (parent_context : AmbientCtx) :
    TraceData :=
  { span_id := format_span_id otel_span.context.span_id
    trace_id := format_trace_id otel_span.context.trace_id
    parent_span_id := otel_span.parent.map (fun p => format_span_id p.span_id)
    parent_sampled :=
      match parent_context.sentry_trace with
      | some sentry_trace_data => sentry_trace_data.2.2
      | none => none
    baggage := parent_context.baggage }

/-- `SentrySpanProcessor._get_otel_context`: the span's attributes when
non-empty and its resource attributes when non-empty. -/
def get_otel_context (otel_span : OtelSpan) : OtelCtx :=
  { attributes :=
      if otel_span.attributes.isEmpty then none else some otel_span.attributes
    resource :=
      if otel_span.resource.attributes.isEmpty then none
      else some otel_span.resource.attributes }

/-- `SentrySpanProcessor._update_span_with_otel_data`: copy every
attribute into the span's data, then classify — HTTP first (operation
`"http." + method`, description method / peer name / target, HTTP status
tag), else database (operation `"db"`, description the statement), else
keep the span name for both. -/
def update_span_with_otel_data (sentry_span : SentrySpanData)
    (otel_span : OtelSpan) : SentrySpanData :=
  let sentry_span :=
    otel_span.attributes.foldl (fun s kv => s.set_data kv.1 kv.2) sentry_span
  let op := otel_span.name
  let description := otel_span.name
  match getTruthy otel_span.attributes SpanAttributes.HTTP_METHOD with
  | some http_method =>
      let op := "http." ++ http_method.toStr
      let description := http_method.toStr
      let description :=
        match getTruthy otel_span.attributes SpanAttributes.NET_PEER_NAME with
        | some peer_name => description ++ " " ++ peer_name.toStr
        | none => description
      let description :=
        match getTruthy otel_span.attributes SpanAttributes.HTTP_TARGET with
        | some target => description ++ " " ++ target.toStr
        | none => description
      let sentry_span :=
        match getTruthy otel_span.attributes SpanAttributes.HTTP_STATUS_CODE with
        | some status_code => sentry_span.set_http_status status_code
        | none => sentry_span
      { sentry_span with op := some op, description := some description }
  | none =>
      match getTruthy otel_span.attributes SpanAttributes.DB_SYSTEM with
      | some _ =>
          let op := "db"
          let description :=
            match getTruthy otel_span.attributes SpanAttributes.DB_STATEMENT with
            | some statement => statement.toStr
            | none => description
          { sentry_span with op := some op, description := some description }
      | none => { sentry_span with op := some op, description := some description }

/-- `SentrySpanProcessor.on_start`: no-op without an active hub;
otherwise look the foreign parent id up in the live mapping and start a
child on the found parent or a transaction, then insert the new native
object keyed by the foreign span id. Returns the new mapping and the
created object (`none` on the no-op path). -/
def on_start (hub : Option Hub) (otel_span_map : SpanMap)
    (otel_span : OtelSpan) (parent_context : AmbientCtx) :
    SpanMap × Option SentrySpanData :=
  match hub with
  | none => (otel_span_map, none)
  | some hub =>
      let trace_data := get_trace_data otel_span parent_context
      let sentry_parent_span :=
        match trace_data.parent_span_id with
        | some parent_span_id => dictGet otel_span_map parent_span_id
        | none => none
      match sentry_parent_span with
      | some sentry_parent_span =>
          let sentry_span := sentry_parent_span.start_child trace_data.span_id
            otel_span.name (Datetime.fromtimestamp otel_span.start_time) "sentry"
          (dictInsert otel_span_map trace_data.span_id sentry_span,
            some sentry_span)
      | none =>
          let sentry_span := hub.start_transaction otel_span.name
            trace_data.span_id trace_data.parent_span_id trace_data.trace_id
            trace_data.baggage (Datetime.fromtimestamp otel_span.start_time)
            "sentry"
          (dictInsert otel_span_map trace_data.span_id sentry_span,
            some sentry_span)

/-- `SentrySpanProcessor.on_end`: `otel_span_map.pop(span_id)` with no
default — `none` models the `KeyError` raised when the id is absent.
On success: set the operation to the span name; for a transaction also
overwrite the name and attach the OTel context block (no attribute
classification); for a plain span run attribute classification; finish
with the converted end time. Returns the new mapping and the finalized
native object. -/
def on_end (otel_span_map : SpanMap) (otel_span : OtelSpan) :
    Option (SpanMap × SentrySpanData) :=
  let span_id := format_span_id otel_span.context.span_id
  match dictPop otel_span_map span_id with
  | none => none
  | some (sentry_span, rest) =>
      let sentry_span := { sentry_span with op := some otel_span.name }
      let sentry_span :=
        if sentry_span.is_transaction then
          SentrySpanData.set_context { sentry_span with name := some otel_span.name }
            OPEN_TELEMETRY_CONTEXT (get_otel_context otel_span)
        else
          update_span_with_otel_data sentry_span otel_span
      some (rest,
        sentry_span.finish (Datetime.fromtimestamp otel_span.end_time))

end SentrySpanProcessor

/-! ### Concrete sample inputs -/

/-- A concrete parentless foreign span with the ids of the concrete
cases in the spec (span id `1234567890abcdef`). -/
def sampleSpan : OtelSpan :=
  { name := "Sample OTel Span"
    context :=
      { trace_id := 0x1234567890abcdef1234567890abcdef
        span_id := 0x1234567890abcdef }
    parent := none
    start_time := 1000000000
    end_time := 2000000000
    attributes := []
    resource := ⟨[]⟩ }

/-- The sample span with its foreign parent id set to `abcdef1234567890`. -/
def sampleChildSpan : OtelSpan :=
  { sampleSpan with
      parent := some
        { trace_id := 0x1234567890abcdef1234567890abcdef
          span_id := 0xabcdef1234567890 } }

/-- A native transaction, as would sit in the live mapping. -/
def sampleNative : SentrySpanData :=
  { is_transaction := true
    span_id := "1234567890abcdef"
    trace_id := some "1234567890abcdef1234567890abcdef"
    name := some "Sample OTel Span"
    start_timestamp := ⟨1000000000⟩ }

/-- A live mapping holding `sampleNative` under the sample span's id. -/
def sampleMap : SpanMap := [("1234567890abcdef", sampleNative)]

/-- A fresh native non-root span, as the tests build with `Span()`. -/
def blankSpan : SentrySpanData :=
  { is_transaction := false
    span_id := "0000000000000000"
    start_timestamp := ⟨0⟩ }

/-- A foreign span carrying the HTTP attributes of concrete case 1. -/
def httpCaseSpan : OtelSpan :=
  { name := "Test OTel Span"
    context := { trace_id := 1, span_id := 2 }
    parent := none
    start_time := 0
    end_time := 0
    attributes :=
      [(SpanAttributes.HTTP_METHOD, .str "GET"),
        (SpanAttributes.NET_PEER_NAME, .str "example.com"),
        (SpanAttributes.HTTP_TARGET, .str "/"),
        (SpanAttributes.HTTP_STATUS_CODE, .int 429)]
    resource := ⟨[]⟩ }

/-- A foreign span carrying the database attributes of concrete case 2. -/
def dbCaseSpan : OtelSpan :=
  { name := "Test OTel Span"
    context := { trace_id := 1, span_id := 2 }
    parent := none
    start_time := 0
    end_time := 0
    attributes :=
      [(SpanAttributes.DB_SYSTEM, .str "postgresql"),
        (SpanAttributes.DB_STATEMENT, .str "SELECT * FROM t")]
    resource := ⟨[]⟩ }

/-- The foreign parent context of concrete case 4
(parent span id `abcdef1234567890`). -/
def parentCtx : OtelSpanContext :=
  { trace_id := 0x1234567890abcdef1234567890abcdef
    span_id := 0xabcdef1234567890 }

/-- A native span sitting in the live mapping under the parent id. -/
def parentNative : SentrySpanData :=
  { is_transaction := true
    span_id := "abcdef1234567890"
    trace_id := some "1234567890abcdef1234567890abcdef"
    start_timestamp := ⟨500000000⟩ }

/-- A live mapping holding `parentNative` under the parent id. -/
def parentMap : SpanMap := [("abcdef1234567890", parentNative)]

/-- An ambient context with no continuation data under either key. -/
def emptyCtx : AmbientCtx := {}

/-- A foreign span carrying both an HTTP-method and a database-system
attribute, for the classification-precedence property. -/
def mixedCaseSpan : OtelSpan :=
  { name := "Test OTel Span"
    context := { trace_id := 1, span_id := 2 }
    parent := none
    start_time := 0
    end_time := 0
    attributes :=
      [(SpanAttributes.HTTP_METHOD, .str "GET"),
        (SpanAttributes.DB_SYSTEM, .str "postgresql")]
    resource := ⟨[]⟩ }

/-! ### Dictionary lemmas -/

theorem dictGet_insert_self {α : Type} (m : List (String × α)) (k : String) (v : α) :
    dictGet (dictInsert m k v) k = some v := by
  induction m with
  | nil => simp [dictInsert, dictGet]
  | cons kv rest ih =>
      obtain ⟨k0, v0⟩ := kv
      by_cases h : k0 = k <;> simp [dictInsert, dictGet, h, ih]

theorem dictGet_insert_ne {α : Type} (m : List (String × α)) (k k0 : String) (v : α)
    (hne : k0 ≠ k) : dictGet (dictInsert m k v) k0 = dictGet m k0 := by
  induction m with
  | nil => simp [dictInsert, dictGet, Ne.symm hne]
  | cons kv rest ih =>
      obtain ⟨k1, v1⟩ := kv
      by_cases h : k1 = k
      · subst h
        simp [dictInsert, dictGet, Ne.symm hne, hne]
      · by_cases h0 : k1 = k0 <;> simp [dictInsert, dictGet, h, h0, ih, hne]

theorem dictGet_erase_self {α : Type} (m : List (String × α)) (k : String) :
    dictGet (dictErase m k) k = none := by
  induction m with
  | nil => simp [dictErase, dictGet]
  | cons kv rest ih =>
      obtain ⟨k0, v0⟩ := kv
      by_cases h : k0 = k <;> simp [dictErase, dictGet, h, ih]

theorem dictGet_erase_ne {α : Type} (m : List (String × α)) (k k0 : String)
    (hne : k0 ≠ k) : dictGet (dictErase m k) k0 = dictGet m k0 := by
  induction m with
  | nil => simp [dictErase]
  | cons kv rest ih =>
      obtain ⟨k1, v1⟩ := kv
      by_cases h : k1 = k
      · subst h
        simp [dictErase, dictGet, Ne.symm hne, ih]
      · by_cases h0 : k1 = k0 <;> simp [dictErase, dictGet, h, h0, ih, hne]

theorem dictErase_of_not_mem {α : Type} (m : List (String × α)) (k : String)
    (h : k ∉ m.map Prod.fst) : dictErase m k = m := by
  induction m with
  | nil => rfl
  | cons kv rest ih =>
      obtain ⟨k0, v0⟩ := kv
      simp only [List.map_cons, List.mem_cons, not_or] at h
      simp [dictErase, h.1, Ne.symm, ih h.2]

theorem dictGet_some_mem {α : Type} (m : List (String × α)) (k : String) (v : α)
    (h : dictGet m k = some v) : k ∈ m.map Prod.fst := by
  induction m with
  | nil => simp [dictGet] at h
  | cons kv rest ih =>
      obtain ⟨k0, v0⟩ := kv
      by_cases h0 : k0 = k
      · simp [h0]
      · simp only [dictGet, h0, if_false] at h
        simp [ih h]

theorem length_dictErase_of_get {α : Type} (m : List (String × α)) (k : String) (v : α)
    (hnodup : (m.map Prod.fst).Nodup) (h : dictGet m k = some v) :
    (dictErase m k).length = m.length - 1 := by
  induction m with
  | nil => simp [dictGet] at h
  | cons kv rest ih =>
      obtain ⟨k0, v0⟩ := kv
      simp only [List.map_cons, List.nodup_cons] at hnodup
      by_cases h0 : k0 = k
      · subst h0
        simp [dictErase, dictErase_of_not_mem rest k0 hnodup.1]
      · simp only [dictGet, h0, if_false] at h
        have hpos : 0 < rest.length := by
          cases rest with
          | nil => simp [dictGet] at h
          | cons kv0 rest0 => simp
        simp only [dictErase, h0, if_false, List.length_cons, ih hnodup.2 h]
        omega

theorem mem_keys_dictInsert {α : Type} (m : List (String × α)) (k k0 : String) (v : α)
    (h : k0 ∈ (dictInsert m k v).map Prod.fst) :
    k0 = k ∨ k0 ∈ m.map Prod.fst := by
  induction m with
  | nil => simpa [dictInsert] using h
  | cons kv rest ih =>
      obtain ⟨k1, v1⟩ := kv
      by_cases h1 : k1 = k
      · subst h1
        simpa [dictInsert] using h
      · simp only [dictInsert, h1, if_false, List.map_cons, List.mem_cons] at h
        rcases h with h | h
        · exact Or.inr (by simp [h])
        · rcases ih h with h | h
          · exact Or.inl h
          · exact Or.inr (by simp [h])

theorem nodup_keys_dictInsert {α : Type} (m : List (String × α)) (k : String) (v : α)
    (hnodup : (m.map Prod.fst).Nodup) :
    ((dictInsert m k v).map Prod.fst).Nodup := by
  induction m with
  | nil => simp [dictInsert]
  | cons kv rest ih =>
      obtain ⟨k0, v0⟩ := kv
      simp only [List.map_cons, List.nodup_cons] at hnodup
      by_cases h : k0 = k
      · subst h
        simpa [dictInsert] using hnodup
      · have hmem : k0 ∉ (dictInsert rest k v).map Prod.fst := by
          intro hmem
          rcases mem_keys_dictInsert rest k k0 v hmem with h0 | h0
          · exact h h0
          · exact hnodup.1 h0
        simp only [dictInsert, h, if_false, List.map_cons, List.nodup_cons]
        exact ⟨hmem, ih hnodup.2⟩

/-! ### Claim theorems -/

/-- C9: when no active native tracing session exists, `on_start` returns
before any mapping access: the live mapping comes back unchanged and no
native object is created. -/
theorem on_start_no_hub_is_noop (otel_span_map : SpanMap) (otel_span : OtelSpan)
    (parent_context : AmbientCtx) :
    SentrySpanProcessor.on_start none otel_span_map otel_span parent_context
      = (otel_span_map, none) := rfl

/-- C10: two runs of `on_start` on the same foreign span and mapping
state whose ambient contexts differ only in the parent-sampled component
of the sentry-trace triple produce identical native objects and mapping
states — the extracted parent sampling decision never flows into any
output. -/
theorem on_start_parent_sampled_noninterference (hub : Option Hub)
    (otel_span_map : SpanMap) (otel_span : OtelSpan) (t p : String)
    (s1 s2 : Option Bool) (b : Option String) :
    SentrySpanProcessor.on_start hub otel_span_map otel_span
        { sentry_trace := some (t, p, s1), baggage := b }
      = SentrySpanProcessor.on_start hub otel_span_map otel_span
        { sentry_trace := some (t, p, s2), baggage := b } := by
  cases hub <;> rfl

/-- C1: the claim says `on_end` for an id absent from the live mapping is
a no-op that never raises; the code instead calls `dict.pop` with no
default, so an id never started raises `KeyError` (modelled `none`), and
a second `on_end` for the same span — the first having succeeded —
raises as well. -/
theorem on_end_missing_id_raises :
    SentrySpanProcessor.on_end [] sampleSpan = none ∧
    (SentrySpanProcessor.on_end sampleMap sampleSpan).isSome = true ∧
    (SentrySpanProcessor.on_end sampleMap sampleSpan).bind
        (fun r => SentrySpanProcessor.on_end r.1 sampleSpan) = none := by
  refine ⟨rfl, rfl, rfl⟩

/-- C2: on the attributes of concrete case 1 the code produces operation
`"http.GET"` — the method is not lowercased, so the claimed `"http.get"`
(also asserted by the repository's own test) fails — while description
`"GET example.com /"`, the `"429"` status tag and status category
`"resource_exhausted"` come out as claimed. -/
theorem http_classification_not_lowercased :
    (SentrySpanProcessor.update_span_with_otel_data blankSpan httpCaseSpan).op
        = some "http.GET" ∧
    (SentrySpanProcessor.update_span_with_otel_data blankSpan httpCaseSpan).op
        ≠ some "http.get" ∧
    (SentrySpanProcessor.update_span_with_otel_data blankSpan httpCaseSpan).description
        = some "GET example.com /" ∧
    dictGet (SentrySpanProcessor.update_span_with_otel_data blankSpan httpCaseSpan).tags
        SpanAttributes.HTTP_STATUS_CODE = some "429" ∧
    (SentrySpanProcessor.update_span_with_otel_data blankSpan httpCaseSpan).status
        = some "resource_exhausted" := by
  decide

/-- C6: on the attributes of concrete case 2 classification sets
operation `"db"` and description to the statement verbatim, which is
also copied unchanged into the data mapping. -/
theorem db_classification_concrete :
    (SentrySpanProcessor.update_span_with_otel_data blankSpan dbCaseSpan).op
        = some "db" ∧
    (SentrySpanProcessor.update_span_with_otel_data blankSpan dbCaseSpan).description
        = some "SELECT * FROM t" ∧
    dictGet (SentrySpanProcessor.update_span_with_otel_data blankSpan dbCaseSpan).data
        SpanAttributes.DB_STATEMENT = some (.str "SELECT * FROM t") := by
  decide

/-! ### Helper lemmas -/

theorem string_append_assoc (a b c : String) : a ++ b ++ c = a ++ (b ++ c) := by
  cases a with
  | mk la =>
      cases b with
      | mk lb =>
          cases c with
          | mk lc => exact congrArg String.mk (List.append_assoc la lb lc)

theorem on_start_inserts (hub : Hub) (otel_span_map : SpanMap) (otel_span : OtelSpan)
    (parent_context : AmbientCtx) :
    ∃ o : SentrySpanData,
      SentrySpanProcessor.on_start (some hub) otel_span_map otel_span parent_context
        = (dictInsert otel_span_map (format_span_id otel_span.context.span_id) o,
            some o) := by
  cases hp : otel_span.parent with
  | none =>
      refine ⟨Hub.start_transaction hub otel_span.name
          (format_span_id otel_span.context.span_id) none
          (format_trace_id otel_span.context.trace_id) parent_context.baggage
          (Datetime.fromtimestamp otel_span.start_time) "sentry", ?_⟩
      simp [SentrySpanProcessor.on_start, SentrySpanProcessor.get_trace_data, hp]
  | some p =>
      cases hg : dictGet otel_span_map (format_span_id p.span_id) with
      | none =>
          refine ⟨Hub.start_transaction hub otel_span.name
              (format_span_id otel_span.context.span_id)
              (some (format_span_id p.span_id))
              (format_trace_id otel_span.context.trace_id) parent_context.baggage
              (Datetime.fromtimestamp otel_span.start_time) "sentry", ?_⟩
          simp [SentrySpanProcessor.on_start, SentrySpanProcessor.get_trace_data,
            hp, hg]
      | some q =>
          refine ⟨q.start_child (format_span_id otel_span.context.span_id)
              otel_span.name (Datetime.fromtimestamp otel_span.start_time)
              "sentry", ?_⟩
          simp [SentrySpanProcessor.on_start, SentrySpanProcessor.get_trace_data,
            hp, hg]

/-- C3: when the foreign parent span id is not found in the live mapping
at start time (no parent id, or parent not tracked), `on_start` creates a
transaction — not a child span — with explicit span id equal to the
foreign span id, the (possibly absent) foreign parent span id, the trace
id, the ambient baggage and the converted start time; with no parent and
no ambient continuation data, parent id and baggage are absent. -/
theorem on_start_root_creates_transaction (hub : Hub) (otel_span_map : SpanMap)
    (otel_span : OtelSpan) (parent_context : AmbientCtx)
    (hpar : ∀ p, otel_span.parent = some p →
      dictGet otel_span_map (format_span_id p.span_id) = none) :
    ∃ o : SentrySpanData,
      SentrySpanProcessor.on_start (some hub) otel_span_map otel_span parent_context
        = (dictInsert otel_span_map (format_span_id otel_span.context.span_id) o,
            some o) ∧
      o.is_transaction = true ∧
      o.span_id = format_span_id otel_span.context.span_id ∧
      o.parent_span_id
        = otel_span.parent.map (fun (p : OtelSpanContext) => format_span_id p.span_id) ∧
      o.trace_id = some (format_trace_id otel_span.context.trace_id) ∧
      o.baggage = parent_context.baggage ∧
      o.name = some otel_span.name ∧
      o.start_timestamp = Datetime.fromtimestamp otel_span.start_time ∧
      (otel_span.parent = none → parent_context.baggage = none →
        o.parent_span_id = none ∧ o.baggage = none) := by
  refine ⟨Hub.start_transaction hub otel_span.name
      (format_span_id otel_span.context.span_id)
      (otel_span.parent.map (fun (p : OtelSpanContext) => format_span_id p.span_id))
      (format_trace_id otel_span.context.trace_id)
      parent_context.baggage
      (Datetime.fromtimestamp otel_span.start_time) "sentry",
    ?_, rfl, rfl, rfl, rfl, rfl, rfl, rfl, ?_⟩
  · cases hp : otel_span.parent with
    | none =>
        simp [SentrySpanProcessor.on_start, SentrySpanProcessor.get_trace_data, hp]
    | some p =>
        simp [SentrySpanProcessor.on_start, SentrySpanProcessor.get_trace_data, hp,
          hpar p hp]
  · intro hp hb
    simp [Hub.start_transaction, hp, hb]

/-- C3 witness: the root-transaction theorem applied to the sample
parentless span over the empty mapping and an empty ambient context. -/
theorem on_start_root_creates_transaction_witness :
    (∀ p, sampleSpan.parent = some p →
      dictGet ([] : SpanMap) (format_span_id p.span_id) = none) ∧
    (∃ o : SentrySpanData,
      SentrySpanProcessor.on_start (some Hub.mk) [] sampleSpan emptyCtx
        = (dictInsert [] (format_span_id sampleSpan.context.span_id) o, some o) ∧
      o.is_transaction = true ∧
      o.span_id = format_span_id sampleSpan.context.span_id ∧
      o.parent_span_id
        = sampleSpan.parent.map (fun (p : OtelSpanContext) => format_span_id p.span_id) ∧
      o.trace_id = some (format_trace_id sampleSpan.context.trace_id) ∧
      o.baggage = emptyCtx.baggage ∧
      o.name = some sampleSpan.name ∧
      o.start_timestamp = Datetime.fromtimestamp sampleSpan.start_time ∧
      (sampleSpan.parent = none → emptyCtx.baggage = none →
        o.parent_span_id = none ∧ o.baggage = none)) :=
  ⟨fun p hp => by simp [sampleSpan] at hp,
    on_start_root_creates_transaction Hub.mk [] sampleSpan emptyCtx
      (fun p hp => by simp [sampleSpan] at hp)⟩

/-- C4: when the foreign parent span id is present in the live mapping at
start time, `on_start` creates a child span attached to that exact parent
object, with explicit id equal to the foreign span id, description equal
to the foreign span name and the converted start time; after the call the
mapping contains both the parent id and the child id. -/
theorem on_start_child_attaches_to_parent (hub : Hub) (otel_span_map : SpanMap)
    (otel_span : OtelSpan) (parent_context : AmbientCtx) (pctx : OtelSpanContext)
    (parent : SentrySpanData)
    (hp : otel_span.parent = some pctx)
    (hfound : dictGet otel_span_map (format_span_id pctx.span_id) = some parent)
    (hne : format_span_id otel_span.context.span_id ≠ format_span_id pctx.span_id) :
    ∃ o : SentrySpanData,
      SentrySpanProcessor.on_start (some hub) otel_span_map otel_span parent_context
        = (dictInsert otel_span_map (format_span_id otel_span.context.span_id) o,
            some o) ∧
      o = parent.start_child (format_span_id otel_span.context.span_id)
            otel_span.name (Datetime.fromtimestamp otel_span.start_time) "sentry" ∧
      o.is_transaction = false ∧
      o.span_id = format_span_id otel_span.context.span_id ∧
      o.parent_span_id = some parent.span_id ∧
      o.description = some otel_span.name ∧
      o.start_timestamp = Datetime.fromtimestamp otel_span.start_time ∧
      dictGet (SentrySpanProcessor.on_start (some hub) otel_span_map otel_span
          parent_context).1 (format_span_id pctx.span_id) = some parent ∧
      dictGet (SentrySpanProcessor.on_start (some hub) otel_span_map otel_span
          parent_context).1 (format_span_id otel_span.context.span_id) = some o := by
  have hmain : SentrySpanProcessor.on_start (some hub) otel_span_map otel_span
      parent_context
      = (dictInsert otel_span_map (format_span_id otel_span.context.span_id)
          (parent.start_child (format_span_id otel_span.context.span_id)
            otel_span.name (Datetime.fromtimestamp otel_span.start_time) "sentry"),
        some (parent.start_child (format_span_id otel_span.context.span_id)
            otel_span.name (Datetime.fromtimestamp otel_span.start_time) "sentry")) := by
    simp [SentrySpanProcessor.on_start, SentrySpanProcessor.get_trace_data, hp, hfound]
  refine ⟨parent.start_child (format_span_id otel_span.context.span_id)
      otel_span.name (Datetime.fromtimestamp otel_span.start_time) "sentry",
    hmain, rfl, rfl, rfl, rfl, rfl, rfl, ?_, ?_⟩
  · rw [hmain]
    simpa [dictGet_insert_ne otel_span_map (format_span_id otel_span.context.span_id)
      (format_span_id pctx.span_id) _ (Ne.symm hne)] using hfound
  · rw [hmain]
    exact dictGet_insert_self otel_span_map (format_span_id otel_span.context.span_id) _

/-- C4 witness: the child-span theorem applied to the sample span whose
foreign parent id is held in the mapping by `parentNative`. -/
theorem on_start_child_attaches_to_parent_witness :
    sampleChildSpan.parent = some parentCtx ∧
    dictGet parentMap (format_span_id parentCtx.span_id) = some parentNative ∧
    format_span_id sampleChildSpan.context.span_id
      ≠ format_span_id parentCtx.span_id ∧
    (∃ o : SentrySpanData,
      SentrySpanProcessor.on_start (some Hub.mk) parentMap sampleChildSpan emptyCtx
        = (dictInsert parentMap (format_span_id sampleChildSpan.context.span_id) o,
            some o) ∧
      o = parentNative.start_child (format_span_id sampleChildSpan.context.span_id)
            sampleChildSpan.name (Datetime.fromtimestamp sampleChildSpan.start_time)
            "sentry" ∧
      o.is_transaction = false ∧
      o.span_id = format_span_id sampleChildSpan.context.span_id ∧
      o.parent_span_id = some parentNative.span_id ∧
      o.description = some sampleChildSpan.name ∧
      o.start_timestamp = Datetime.fromtimestamp sampleChildSpan.start_time ∧
      dictGet (SentrySpanProcessor.on_start (some Hub.mk) parentMap sampleChildSpan
          emptyCtx).1 (format_span_id parentCtx.span_id) = some parentNative ∧
      dictGet (SentrySpanProcessor.on_start (some Hub.mk) parentMap sampleChildSpan
          emptyCtx).1 (format_span_id sampleChildSpan.context.span_id) = some o) :=
  ⟨rfl, by decide, by decide,
    on_start_child_attaches_to_parent Hub.mk parentMap sampleChildSpan emptyCtx
      parentCtx parentNative rfl (by decide) (by decide)⟩

/-- C5: for a non-root span carrying both a truthy HTTP-method attribute
and a truthy database-system attribute, classification applies the HTTP
rules and never the database rules: the operation is the HTTP one (never
`"db"`) and the description starts with the method — HTTP is checked
first and only one category is applied. -/
theorem classification_applies_http_never_db (sentry_span : SentrySpanData)
    (otel_span : OtelSpan) (http_method db_system : AttrVal)
    (hm : dictGet otel_span.attributes SpanAttributes.HTTP_METHOD = some http_method)
    (hmt : http_method.truthy = true)
    (hd : dictGet otel_span.attributes SpanAttributes.DB_SYSTEM = some db_system)
    (hdt : db_system.truthy = true) :
    (SentrySpanProcessor.update_span_with_otel_data sentry_span otel_span).op
        = some ("http." ++ http_method.toStr) ∧
    (SentrySpanProcessor.update_span_with_otel_data sentry_span otel_span).op
        ≠ some "db" ∧
    ∃ rest : String,
      (SentrySpanProcessor.update_span_with_otel_data sentry_span otel_span).description
        = some (http_method.toStr ++ rest) := by
  have hget : getTruthy otel_span.attributes SpanAttributes.HTTP_METHOD
      = some http_method := by
    simp [getTruthy, hm, hmt]
  have hop : (SentrySpanProcessor.update_span_with_otel_data sentry_span otel_span).op
      = some ("http." ++ http_method.toStr) := by
    simp only [SentrySpanProcessor.update_span_with_otel_data, hget]
  refine ⟨hop, ?_, ?_⟩
  · rw [hop]
    intro h
    have hl := congrArg String.length (Option.some.inj h)
    rw [String.length_append] at hl
    have h5 : ("http." : String).length = 5 := rfl
    have h2 : ("db" : String).length = 2 := rfl
    rw [h5, h2] at hl
    omega
  · simp only [SentrySpanProcessor.update_span_with_otel_data, hget]
    cases hpeer : getTruthy otel_span.attributes SpanAttributes.NET_PEER_NAME with
    | none =>
        cases htarget : getTruthy otel_span.attributes SpanAttributes.HTTP_TARGET with
        | none => exact ⟨"", by simp⟩
        | some target =>
            exact ⟨" " ++ target.toStr, by simp [string_append_assoc]⟩
    | some peer_name =>
        cases htarget : getTruthy otel_span.attributes SpanAttributes.HTTP_TARGET with
        | none => exact ⟨" " ++ peer_name.toStr, by simp [string_append_assoc]⟩
        | some target =>
            refine ⟨" " ++ peer_name.toStr ++ " " ++ target.toStr, ?_⟩
            simp [string_append_assoc]

/-- C5 witness: the precedence theorem applied to the sample span that
carries both `http.method = "GET"` and `db.system = "postgresql"`. -/
theorem classification_applies_http_never_db_witness :
    dictGet mixedCaseSpan.attributes SpanAttributes.HTTP_METHOD
      = some (AttrVal.str "GET") ∧
    (AttrVal.str "GET").truthy = true ∧
    dictGet mixedCaseSpan.attributes SpanAttributes.DB_SYSTEM
      = some (AttrVal.str "postgresql") ∧
    (AttrVal.str "postgresql").truthy = true ∧
    ((SentrySpanProcessor.update_span_with_otel_data blankSpan mixedCaseSpan).op
        = some ("http." ++ (AttrVal.str "GET").toStr) ∧
      (SentrySpanProcessor.update_span_with_otel_data blankSpan mixedCaseSpan).op
        ≠ some "db" ∧
      ∃ rest : String,
        (SentrySpanProcessor.update_span_with_otel_data
            blankSpan mixedCaseSpan).description
          = some ((AttrVal.str "GET").toStr ++ rest)) :=
  ⟨by decide, by decide, by decide, by decide,
    classification_applies_http_never_db blankSpan mixedCaseSpan
      (AttrVal.str "GET") (AttrVal.str "postgresql")
      (by decide) (by decide) (by decide) (by decide)⟩

/-- C7: the live mapping holds exactly the started-and-not-ended spans —
`on_start` with an active session inserts exactly the new native object
keyed by the foreign span id, leaving every other entry unchanged, and
`on_end` for a present id removes exactly that one entry: the id is gone,
every other entry is untouched, and the size decreases by exactly one. -/
theorem live_mapping_lifecycle (otel_span_map : SpanMap) (otel_span : OtelSpan)
    (hnodup : (otel_span_map.map Prod.fst).Nodup) :
    (∀ (hub : Hub) (parent_context : AmbientCtx), ∃ o : SentrySpanData,
      (SentrySpanProcessor.on_start (some hub) otel_span_map otel_span
          parent_context).1
        = dictInsert otel_span_map (format_span_id otel_span.context.span_id) o ∧
      (SentrySpanProcessor.on_start (some hub) otel_span_map otel_span
          parent_context).2 = some o ∧
      dictGet (SentrySpanProcessor.on_start (some hub) otel_span_map otel_span
          parent_context).1 (format_span_id otel_span.context.span_id) = some o ∧
      (∀ k, k ≠ format_span_id otel_span.context.span_id →
        dictGet (SentrySpanProcessor.on_start (some hub) otel_span_map otel_span
          parent_context).1 k = dictGet otel_span_map k)) ∧
    (∀ v : SentrySpanData,
      dictGet otel_span_map (format_span_id otel_span.context.span_id) = some v →
      ∃ r : SpanMap × SentrySpanData,
        SentrySpanProcessor.on_end otel_span_map otel_span = some r ∧
        dictGet r.1 (format_span_id otel_span.context.span_id) = none ∧
        (∀ k, k ≠ format_span_id otel_span.context.span_id →
          dictGet r.1 k = dictGet otel_span_map k) ∧
        r.1.length = otel_span_map.length - 1 ∧
        otel_span_map.length = r.1.length + 1) := by
  constructor
  · intro hub parent_context
    obtain ⟨o, ho⟩ := on_start_inserts hub otel_span_map otel_span parent_context
    refine ⟨o, by rw [ho], by rw [ho], ?_, ?_⟩
    · rw [ho]
      exact dictGet_insert_self otel_span_map _ o
    · intro k hk
      rw [ho]
      exact dictGet_insert_ne otel_span_map _ k o hk
  · intro v hv
    have hpos : 0 < otel_span_map.length := by
      cases otel_span_map with
      | nil => simp [dictGet] at hv
      | cons a l => simp
    have hlen := length_dictErase_of_get otel_span_map
      (format_span_id otel_span.context.span_id) v hnodup hv
    simp only [SentrySpanProcessor.on_end, dictPop, hv]
    refine ⟨_, rfl, ?_, ?_, ?_, ?_⟩
    · exact dictGet_erase_self otel_span_map _
    · intro k hk
      exact dictGet_erase_ne otel_span_map _ k hk
    · exact hlen
    · rw [hlen]
      omega

/-- C7 witness: the lifecycle theorem applied to the singleton mapping
holding the sample native transaction under the sample span's id. -/
theorem live_mapping_lifecycle_witness :
    (sampleMap.map Prod.fst).Nodup ∧
    ((∀ (hub : Hub) (parent_context : AmbientCtx), ∃ o : SentrySpanData,
      (SentrySpanProcessor.on_start (some hub) sampleMap sampleSpan
          parent_context).1
        = dictInsert sampleMap (format_span_id sampleSpan.context.span_id) o ∧
      (SentrySpanProcessor.on_start (some hub) sampleMap sampleSpan
          parent_context).2 = some o ∧
      dictGet (SentrySpanProcessor.on_start (some hub) sampleMap sampleSpan
          parent_context).1 (format_span_id sampleSpan.context.span_id) = some o ∧
      (∀ k, k ≠ format_span_id sampleSpan.context.span_id →
        dictGet (SentrySpanProcessor.on_start (some hub) sampleMap sampleSpan
          parent_context).1 k = dictGet sampleMap k)) ∧
    (∀ v : SentrySpanData,
      dictGet sampleMap (format_span_id sampleSpan.context.span_id) = some v →
      ∃ r : SpanMap × SentrySpanData,
        SentrySpanProcessor.on_end sampleMap sampleSpan = some r ∧
        dictGet r.1 (format_span_id sampleSpan.context.span_id) = none ∧
        (∀ k, k ≠ format_span_id sampleSpan.context.span_id →
          dictGet r.1 k = dictGet sampleMap k) ∧
        r.1.length = sampleMap.length - 1 ∧
        sampleMap.length = r.1.length + 1)) :=
  ⟨by decide, live_mapping_lifecycle sampleMap sampleSpan (by decide)⟩

/-- C8: when the live-mapping entry for an ended span is a transaction,
`on_end` overwrites the transaction's name with the foreign span name,
attaches the OTel context block under the fixed key `"otel"` (the span's
attributes when non-empty and its resource attributes when non-empty),
runs no attribute classification (data, description, tags and status are
untouched), and finishes the transaction with the converted end time. -/
theorem on_end_transaction_finalization (otel_span_map : SpanMap)
    (otel_span : OtelSpan) (t : SentrySpanData)
    (hget : dictGet otel_span_map (format_span_id otel_span.context.span_id) = some t)
    (htr : t.is_transaction = true) :
    ∃ r : SpanMap × SentrySpanData,
      SentrySpanProcessor.on_end otel_span_map otel_span = some r ∧
      r.2 = SentrySpanData.finish
          (SentrySpanData.set_context
            { t with op := some otel_span.name, name := some otel_span.name }
            OPEN_TELEMETRY_CONTEXT
            (SentrySpanProcessor.get_otel_context otel_span))
          (Datetime.fromtimestamp otel_span.end_time) ∧
      r.2.name = some otel_span.name ∧
      dictGet r.2.contexts OPEN_TELEMETRY_CONTEXT
        = some (SentrySpanProcessor.get_otel_context otel_span) ∧
      (otel_span.attributes ≠ [] →
        (SentrySpanProcessor.get_otel_context otel_span).attributes
          = some otel_span.attributes) ∧
      (otel_span.attributes = [] →
        (SentrySpanProcessor.get_otel_context otel_span).attributes = none) ∧
      (otel_span.resource.attributes ≠ [] →
        (SentrySpanProcessor.get_otel_context otel_span).resource
          = some otel_span.resource.attributes) ∧
      (otel_span.resource.attributes = [] →
        (SentrySpanProcessor.get_otel_context otel_span).resource = none) ∧
      r.2.data = t.data ∧
      r.2.description = t.description ∧
      r.2.tags = t.tags ∧
      r.2.status = t.status ∧
      r.2.end_timestamp = some (Datetime.fromtimestamp otel_span.end_time) ∧
      r.2.finished = true := by
  simp only [SentrySpanProcessor.on_end, dictPop, hget, htr]
  refine ⟨_, rfl, ?_, ?_, ?_, ?_, ?_, ?_, ?_, ?_, ?_, ?_, ?_, ?_, ?_⟩
  · simp [htr, SentrySpanData.set_context, SentrySpanData.finish]
  · simp [htr, SentrySpanData.set_context, SentrySpanData.finish]
  · simp only [htr, if_true, SentrySpanData.set_context, SentrySpanData.finish]
    exact dictGet_insert_self _ _ _
  · intro h
    simp [SentrySpanProcessor.get_otel_context, h]
  · intro h
    simp [SentrySpanProcessor.get_otel_context, h]
  · intro h
    simp [SentrySpanProcessor.get_otel_context, h]
  · intro h
    simp [SentrySpanProcessor.get_otel_context, h]
  · simp [htr, SentrySpanData.set_context, SentrySpanData.finish]
  · simp [htr, SentrySpanData.set_context, SentrySpanData.finish]
  · simp [htr, SentrySpanData.set_context, SentrySpanData.finish]
  · simp [htr, SentrySpanData.set_context, SentrySpanData.finish]
  · simp [htr, SentrySpanData.set_context, SentrySpanData.finish]
  · simp [htr, SentrySpanData.set_context, SentrySpanData.finish]

/-- C8 witness: the transaction-finalization theorem applied to the
singleton mapping holding the sample native transaction. -/
theorem on_end_transaction_finalization_witness :
    dictGet sampleMap (format_span_id sampleSpan.context.span_id)
      = some sampleNative ∧
    sampleNative.is_transaction = true ∧
    (∃ r : SpanMap × SentrySpanData,
      SentrySpanProcessor.on_end sampleMap sampleSpan = some r ∧
      r.2 = SentrySpanData.finish
          (SentrySpanData.set_context
            { sampleNative with
                op := some sampleSpan.name, name := some sampleSpan.name }
            OPEN_TELEMETRY_CONTEXT
            (SentrySpanProcessor.get_otel_context sampleSpan))
          (Datetime.fromtimestamp sampleSpan.end_time) ∧
      r.2.name = some sampleSpan.name ∧
      dictGet r.2.contexts OPEN_TELEMETRY_CONTEXT
        = some (SentrySpanProcessor.get_otel_context sampleSpan) ∧
      (sampleSpan.attributes ≠ [] →
        (SentrySpanProcessor.get_otel_context sampleSpan).attributes
          = some sampleSpan.attributes) ∧
      (sampleSpan.attributes = [] →
        (SentrySpanProcessor.get_otel_context sampleSpan).attributes = none) ∧
      (sampleSpan.resource.attributes ≠ [] →
        (SentrySpanProcessor.get_otel_context sampleSpan).resource
          = some sampleSpan.resource.attributes) ∧
      (sampleSpan.resource.attributes = [] →
        (SentrySpanProcessor.get_otel_context sampleSpan).resource = none) ∧
      r.2.data = sampleNative.data ∧
      r.2.description = sampleNative.description ∧
      r.2.tags = sampleNative.tags ∧
      r.2.status = sampleNative.status ∧
      r.2.end_timestamp = some (Datetime.fromtimestamp sampleSpan.end_time) ∧
      r.2.finished = true) :=
  ⟨by decide, rfl,
    on_end_transaction_finalization sampleMap sampleSpan sampleNative
      (by decide) rfl⟩
